import Mathlib

/-!
Shallow embedding of the TestGen-Lite question-bank picker (src/app.py).

Python dicts that represent JSON question objects become a `Question`
structure whose fields are `Option`-typed to record key presence; the
instance dicts stored in the session state become `Inst`.  Fallible Python
fragments (list indexing, `str.format`, the parameter-expression `eval`)
return `Except PyErr`.  The ambient random source is modelled as a function
`rng : Nat → Nat` together with an explicit draw position, so that theorems
can quantify over every possible sequence of draws.
-/

/-- Exceptions raised by the embedded Python fragments. -/
inductive PyErr where
  | nameError
  | keyError
  | indexError
  | valueError
  | typeError
  deriving DecidableEq, Repr

/-- Values that can appear in a generated parameter mapping: integers,
strings, Python `None`, and (reachable through the unrestricted `eval`,
see `evalPyExpr`) built-in function objects. -/
inductive PyVal where
  | int (n : Int)
  | str (s : String)
  | builtin (name : String)
  | noneV
  deriving DecidableEq, Repr

/-- Abstract syntax of the Python expressions that appear as `expr`
parameter rules: integer literals, identifiers and the arithmetic
operators used by the question bank. -/
inductive PyExpr where
  | num (n : Int)
  | ident (x : String)
  | add (a b : PyExpr)
  | sub (a b : PyExpr)
  | mul (a b : PyExpr)
  deriving DecidableEq, Repr

/-- A parameter-generation rule, discriminated exactly as in
`generate_params_for_question`: a dict with `min` and `max` keys is a range
rule, otherwise a dict with an `expr` key is an expression rule, and any
other value is copied verbatim. -/
inductive ParamRule where
  | range (lo hi : Int)
  | expr (e : PyExpr)
  | lit (v : PyVal)
  deriving DecidableEq, Repr

/-- One pre-authored variant: a `{text, solution}` dict. -/
structure Variant where
  text : Option String := Option.none
  solution : Option String := Option.none
  deriving DecidableEq, Repr

/-- A question definition from `questions.json`.  `Option` fields record
whether the corresponding dict key is present. -/
structure Question where
  id : String
  text : Option String := Option.none
  solution : Option String := Option.none
  text_template : Option String := Option.none
  solution_template : Option String := Option.none
  static : Option Bool := Option.none
  variants : Option (List Variant) := Option.none
  params : Option (List (String × ParamRule)) := Option.none
  topics : Option (List String) := Option.none
  topic : Option String := Option.none
  courses : Option (List String) := Option.none
  qtypes : Option (List String) := Option.none
  points : Option Int := Option.none
  deriving DecidableEq, Repr

/-- A test entry, as built by `add_to_test`:
`{"qid": <id>, "variant": <int or None>}`, with an optional `params` key. -/
structure Inst where
  qid : String
  variant : Option Int := Option.none
  params : Option (List (String × PyVal)) := Option.none
  deriving DecidableEq, Repr

/-- Python dict lookup (`d.get(k)`) over an insertion-ordered association
list with distinct keys. -/
def dictGet (m : List (String × α)) (k : String) : Option α :=
  match m with
  | [] => Option.none
  | (k1, v) :: rest => if k1 = k then some v else dictGet rest k

/-- Python dict assignment (`d[k] = v`): overwrite in place, else append. -/
def dictSet (m : List (String × α)) (k : String) (v : α) : List (String × α) :=
  match m with
  | [] => [(k, v)]
  | (k1, v1) :: rest => if k1 = k then (k1, v) :: rest else (k1, v1) :: dictSet rest k v

/-- Python list indexing `l[i]`: non-negative indices from the front,
negative indices from the back, `Option.none` for an `IndexError`. -/
def pyIndex (l : List α) (i : Int) : Option α :=
  if 0 ≤ i then l.get? i.toNat
  else if (l.length : Int) + i < 0 then Option.none
  else l.get? ((l.length : Int) + i).toNat

/-- Python `str(v)` for the modelled values. -/
def pyStr : PyVal → String
  | .int n => toString n
  | .str s => s
  | .builtin name => "<built-in function " ++ name ++ ">"
  | .noneV => "None"

/-- A (sub)set of the CPython built-in names.  `eval(expr, {}, values)` is
called with a globals dict lacking `__builtins__`, so CPython injects the
real built-ins module: free names fall back to these before raising. -/
def pyBuiltins : List String :=
  ["abs", "min", "max", "len", "sum", "pow", "round", "int", "str",
   "open", "eval", "print", "input", "getattr", "setattr"]

/-- `eval(expr, {}, values)` on a parameter expression.  Name resolution
follows CPython's LOAD_NAME for code evaluated with empty globals: the
locals mapping `values` first, then the injected built-ins; only a name
found in neither raises `NameError`.  Arithmetic is over integers (plus
string concatenation for `+`), the fragment the question bank's rules
use. -/
def evalPyExpr : PyExpr → List (String × PyVal) → Except PyErr PyVal
  | .num n, _ => .ok (.int n)
  | .ident x, env =>
      match dictGet env x with
      | some v => .ok v
      | Option.none =>
          if pyBuiltins.contains x then .ok (.builtin x) else .error .nameError
  | .add a b, env =>
      match evalPyExpr a env, evalPyExpr b env with
      | .ok (.int m), .ok (.int n) => .ok (.int (m + n))
      | .ok (.str s), .ok (.str t) => .ok (.str (s ++ t))
      | .error e, _ => .error e
      | _, .error e => .error e
      | _, _ => .error .typeError
  | .sub a b, env =>
      match evalPyExpr a env, evalPyExpr b env with
      | .ok (.int m), .ok (.int n) => .ok (.int (m - n))
      | .error e, _ => .error e
      | _, .error e => .error e
      | _, _ => .error .typeError
  | .mul a b, env =>
      match evalPyExpr a env, evalPyExpr b env with
      | .ok (.int m), .ok (.int n) => .ok (.int (m * n))
      | .error e, _ => .error e
      | _, .error e => .error e
      | _, _ => .error .typeError

/-- Core loop of Python `template.format(**env)`.  The second argument is
`Option.none` in literal mode and `some acc` inside a replacement field,
`acc` holding the reversed field name read so far.  `{{`/`}}` are escapes,
a field name absent from `env` raises `KeyError`, and a stray brace raises
`ValueError`, as in CPython. -/
def pyFormatAux (env : List (String × PyVal)) : List Char → Option (List Char) → Except PyErr (List Char)
  | [], Option.none => .ok []
  | [], some _ => .error .valueError
  | '{' :: '{' :: cs, Option.none =>
      match pyFormatAux env cs Option.none with
      | .ok out => .ok ('{' :: out)
      | .error e => .error e
  | '}' :: '}' :: cs, Option.none =>
      match pyFormatAux env cs Option.none with
      | .ok out => .ok ('}' :: out)
      | .error e => .error e
  | '{' :: cs, Option.none => pyFormatAux env cs (some [])
  | '}' :: _, Option.none => .error .valueError
  | c :: cs, Option.none =>
      match pyFormatAux env cs Option.none with
      | .ok out => .ok (c :: out)
      | .error e => .error e
  | '}' :: cs, some acc =>
      match dictGet env (String.mk acc.reverse) with
      | some v =>
          match pyFormatAux env cs Option.none with
          | .ok out => .ok ((pyStr v).toList ++ out)
          | .error e => .error e
      | Option.none => .error .keyError
  | '{' :: _, some _ => .error .valueError
  | c :: cs, some acc => pyFormatAux env cs (some (c :: acc))

/-- Python `template.format(**env)`. -/
def pyFormat (t : String) (env : List (String × PyVal)) : Except PyErr String :=
  match pyFormatAux env t.toList Option.none with
  | .ok out => .ok (String.mk out)
  | .error e => .error e

/-- `get_question_topics(q)`: the `topics` list when present, else the
singleton of a truthy legacy `topic`, else empty. -/
def get_question_topics (q : Question) : List String :=
  match q.topics with
  | some ts => ts
  | Option.none =>
      match q.topic with
      | some t => if t = "" then [] else [t]
      | Option.none => []

/-- Does the first list occur as a prefix of the second? -/
def listStarts : List Char → List Char → Bool
  | [], _ => true
  | _ :: _, [] => false
  | a :: as, b :: bs => a == b && listStarts as bs

/-- Does the first list occur as a contiguous segment of the second? -/
def listHasSeg (n : List Char) : List Char → Bool
  | [] => listStarts n []
  | c :: cs => listStarts n (c :: cs) || listHasSeg n cs

/-- Python's `needle in hay` substring test. -/
def strContains (hay needle : String) : Bool :=
  listHasSeg needle.toList hay.toList

/-- The characters removed by Python `str.strip()` (ASCII whitespace). -/
def pyWhitespace : List Char := [' ', '\t', '\n', '\r', '\x0b', '\x0c']

/-- `not s.strip()`: the string is empty or whitespace-only. -/
def pyStripEmpty (s : String) : Bool :=
  s.toList.all (fun c => pyWhitespace.contains c)

/-- Truthiness of `set(a) & set(b)`: the two string collections meet. -/
def setIntersects (a b : List String) : Bool :=
  a.any (fun x => b.contains x)

/-- `question_matches_filters` from src/app.py: each filter field restricts
only when non-empty, the search restricts only when its text is not
whitespace-only, and all predicates are conjoined (the Python code's early
`return False`s). -/
def question_matches_filters (q : Question)
    (course_filter static_filter qtype_filter topic_filter : List String)
    (search_text : String) : Bool :=
  let q_courses := q.courses.getD []
  let courseOk := course_filter.isEmpty || setIntersects q_courses course_filter
  let staticOk :=
    static_filter.isEmpty ||
      (if q.static.getD true then static_filter.contains "Static"
       else static_filter.contains "Non-static")
  let q_qtypes := q.qtypes.getD []
  let qtypeOk := qtype_filter.isEmpty || setIntersects q_qtypes qtype_filter
  let q_topics := get_question_topics q
  let topicOk := topic_filter.isEmpty || setIntersects q_topics topic_filter
  let searchOk :=
    pyStripEmpty search_text ||
      (let text_parts :=
         [q.text.getD "", String.intercalate " " q_topics,
          String.intercalate " " q_qtypes, String.intercalate " " q_courses,
          q.id] ++ (q.variants.getD []).map (fun v => v.text.getD "")
       let haystack := (String.intercalate " " text_parts).toLower
       strContains haystack search_text.toLower)
  courseOk && staticOk && qtypeOk && topicOk && searchOk

/-- `filtered_questions` from src/app.py: the empty-bank early return,
else a list comprehension over the bank in order. -/
def filtered_questions (bank : List Question)
    (course_filter static_filter qtype_filter topic_filter : List String)
    (search_text : String) : List Question :=
  if bank.isEmpty then []
  else bank.filter (fun q =>
    question_matches_filters q course_filter static_filter qtype_filter
      topic_filter search_text)

/-- `random.randint(a, b)` given one raw draw `r`: a uniform integer in
`[a, b]` inclusive; `a > b` raises `ValueError`. -/
def pyRandint (a b : Int) (r : Nat) : Except PyErr Int :=
  if a ≤ b then .ok (a + Int.ofNat (r % (b - a + 1).toNat))
  else .error .valueError

/-- The loop of `generate_params_for_question`: process the rules in
declaration order, accumulating the `values` dict; range rules consume one
random draw, expression rules are evaluated against the values generated so
far, any other rule is copied verbatim. -/
def gen_params_go (rng : Nat → Nat) :
    List (String × ParamRule) → List (String × PyVal) → Nat →
    Except PyErr (List (String × PyVal) × Nat)
  | [], values, pos => .ok (values, pos)
  | (name, rule) :: rest, values, pos =>
      match rule with
      | .range lo hi =>
          match pyRandint lo hi (rng pos) with
          | .ok v => gen_params_go rng rest (dictSet values name (.int v)) (pos + 1)
          | .error e => .error e
      | .expr e =>
          match evalPyExpr e values with
          | .ok v => gen_params_go rng rest (dictSet values name v) pos
          | .error er => .error er
      | .lit v => gen_params_go rng rest (dictSet values name v) pos

/-- `generate_params_for_question(q)`: fold the question's `params` spec
into a concrete value mapping, threading the random source. -/
def generate_params_for_question (rng : Nat → Nat) (q : Question) (pos : Nat) :
    Except PyErr (List (String × PyVal) × Nat) :=
  gen_params_go rng (q.params.getD []) [] pos

/-- `add_to_test(ids_to_add)`: one new instance per id, silently skipping
unknown ids; non-static questions with a non-empty `variants` list draw a
uniform variant index, and questions with a `params` dict store a freshly
generated parameter mapping.  A raised generation error aborts the whole
call in the model (in Python it would propagate to the caller). -/
def add_to_test (byId : List (String × Question)) (rng : Nat → Nat) :
    List String → List Inst → Nat → Except PyErr (List Inst × Nat)
  | [], insts, pos => .ok (insts, pos)
  | qid :: rest, insts, pos =>
      match dictGet byId qid with
      | Option.none => add_to_test byId rng rest insts pos
      | some q =>
          let vdraw : Option Int × Nat :=
            if q.static.getD true then (Option.none, pos)
            else match q.variants with
              | Option.none => (Option.none, pos)
              | some vs =>
                  if vs.isEmpty then (Option.none, pos)
                  else (some (Int.ofNat (rng pos % vs.length)), pos + 1)
          match q.params with
          | some _ =>
              match generate_params_for_question rng q vdraw.2 with
              | .ok (vals, pos2) =>
                  add_to_test byId rng rest
                    (insts ++ [{ qid := qid, variant := vdraw.1, params := some vals }]) pos2
              | .error e => .error e
          | Option.none =>
              add_to_test byId rng rest
                (insts ++ [{ qid := qid, variant := vdraw.1, params := Option.none }]) vdraw.2

/-- Placeholder instance for the (unreachable) out-of-range defaults of
`List.getD` below. -/
def instDefault : Inst := { qid := "" }

/-- `move_up(index)`: swap with the previous entry; no-op when the index is
at the front or out of range. -/
def move_up (insts : List Inst) (index : Int) : List Inst :=
  if index ≤ 0 ∨ (insts.length : Int) ≤ index then insts
  else
    let i := index.toNat
    (insts.set (i - 1) (insts.getD i instDefault)).set i (insts.getD (i - 1) instDefault)

/-- `move_down(index)`: swap with the next entry; no-op when the index is
at the back or out of range. -/
def move_down (insts : List Inst) (index : Int) : List Inst :=
  if index < 0 ∨ (insts.length : Int) - 1 ≤ index then insts
  else
    let i := index.toNat
    (insts.set (i + 1) (insts.getD i instDefault)).set i (insts.getD (i + 1) instDefault)

/-- `remove_from_test(index)`: delete the entry when the index is in range,
else a no-op. -/
def remove_from_test (insts : List Inst) (index : Int) : List Inst :=
  if 0 ≤ index ∧ index < (insts.length : Int) then insts.eraseIdx index.toNat
  else insts

/-- `[i for i in range(len(variants)) if i != current]` from
`regenerate_variant` (Python's `!=` between an `int` and `None` is always
true). -/
def variant_others (n : Nat) (current : Option Int) : List Nat :=
  (List.range n).filter (fun (j : Nat) =>
    match current with
    | Option.none => true
    | some c => decide (Int.ofNat j ≠ c))

/-- The `... or list(range(len(variants)))` fallback of
`regenerate_variant`: an empty comprehension is falsy. -/
def variant_choices (n : Nat) (current : Option Int) : List Nat :=
  if (variant_others n current).isEmpty then List.range n
  else variant_others n current

/-- `random.choice(choices)` on the candidate list, modelled as
`choices[r % len(choices)]` for the raw draw `r`; for `n > 0` the list is
never empty, so the `getD` default is unreachable. -/
def choose_new_variant (n : Nat) (current : Option Int) (r : Nat) : Nat :=
  (variant_choices n current).getD (r % (variant_choices n current).length) 0

/-- `regenerate_variant(index)`: for an in-range index whose question
exists, is non-static and has a truthy `variants` list, redraw the stored
variant index via `random.choice` over the indices differing from the
current one (falling back to the full range when that filter is empty);
otherwise a no-op. -/
def regenerate_variant (byId : List (String × Question)) (insts : List Inst)
    (index : Int) (rng : Nat → Nat) (pos : Nat) : List Inst × Nat :=
  if index < 0 ∨ (insts.length : Int) ≤ index then (insts, pos)
  else
    let i := index.toNat
    let inst := insts.getD i instDefault
    match dictGet byId inst.qid with
    | Option.none => (insts, pos)
    | some base =>
        if base.static.getD true then (insts, pos)
        else
          let vs := base.variants.getD []
          if vs.isEmpty then (insts, pos)
          else
            let newIdx := choose_new_variant vs.length inst.variant (rng pos)
            (insts.set i { inst with variant := some (Int.ofNat newIdx) }, pos + 1)

/-- `reset_test()`: clear the instance sequence. -/
def reset_test : List Inst := []

/-- Stage 1 of `get_instance_question`: the variant override.  It fires
only when the question is non-static, its `variants` list is truthy and the
instance stores a variant index; the stored index is applied with Python
list-indexing semantics, so an index outside `[-len, len)` raises
`IndexError`. -/
def apply_variant (base : Question) (inst : Inst) : Except PyErr Question :=
  if base.static.getD true then .ok base
  else
    match base.variants.getD [], inst.variant with
    | [], _ => .ok base
    | _ :: _, Option.none => .ok base
    | v0 :: vrest, some idx =>
        match pyIndex (v0 :: vrest) idx with
        | some v =>
            .ok { base with
                  text := some (v.text.getD (base.text.getD "")),
                  solution := some (v.solution.getD (base.solution.getD "")) }
        | Option.none => .error .indexError

/-- Stage 2a of `get_instance_question`: render `text_template` when the
question defines one (the params dict was already checked truthy). -/
def apply_text_template (base q1 : Question) (ps : List (String × PyVal)) :
    Except PyErr Question :=
  match base.text_template with
  | Option.none => .ok q1
  | some tt =>
      match pyFormat tt ps with
      | .ok s => .ok { q1 with text := some s }
      | .error e => .error e

/-- Stage 2b of `get_instance_question`: render `solution_template`. -/
def apply_solution_template (base q2 : Question) (ps : List (String × PyVal)) :
    Except PyErr Question :=
  match base.solution_template with
  | Option.none => .ok q2
  | some tt =>
      match pyFormat tt ps with
      | .ok s => .ok { q2 with solution := some s }
      | .error e => .error e

/-- Stage 2 of `get_instance_question`: template rendering, guarded only by
the truthiness of the instance's stored `params` (note: not by `static`). -/
def apply_templates (base q1 : Question) (inst : Inst) : Except PyErr Question :=
  match inst.params with
  | Option.none => .ok q1
  | some [] => .ok q1
  | some ps =>
      match apply_text_template base q1 ps with
      | .ok q2 => apply_solution_template base q2 ps
      | .error e => .error e

/-- Stage 3 of `get_instance_question`: the two `setdefault` fallbacks
guaranteeing `text`/`solution` are present. -/
def apply_defaults (base q3 : Question) : Question :=
  { q3 with
    text := some (q3.text.getD (base.text.getD "")),
    solution := some (q3.solution.getD (base.solution.getD "")) }

/-- `get_instance_question(inst_obj)`: resolve one instance to its concrete
question dict.  A failed id lookup returns Python `None` (`.ok none`); a
raised `IndexError`/`KeyError` from the stages propagates. -/
def get_instance_question (byId : List (String × Question)) (inst : Inst) :
    Except PyErr (Option Question) :=
  match dictGet byId inst.qid with
  | Option.none => .ok Option.none
  | some base =>
      match apply_variant base inst with
      | .error e => .error e
      | .ok q1 =>
          match apply_templates base q1 inst with
          | .error e => .error e
          | .ok q3 => .ok (some (apply_defaults base q3))

/-- Body lines of `make_test_markdown`: `enumerate(instances, start=1)`,
skipping instances whose resolution returns `None` (their number is still
consumed) and propagating a raised resolution error. -/
def test_lines (byId : List (String × Question)) :
    List Inst → Nat → Except PyErr (List String)
  | [], _ => .ok []
  | inst :: rest, i =>
      match get_instance_question byId inst with
      | .error e => .error e
      | .ok Option.none => test_lines byId rest (i + 1)
      | .ok (some q) =>
          match test_lines byId rest (i + 1) with
          | .ok ls => .ok ((toString i ++ ". " ++ q.text.getD "") :: "" :: ls)
          | .error e => .error e

/-- `make_test_markdown()`: the header lines plus the numbered entries,
joined with newlines. -/
def make_test_markdown (byId : List (String × Question)) (insts : List Inst) :
    Except PyErr String :=
  match test_lines byId insts 1 with
  | .ok ls => .ok (String.intercalate "\n" ("# Test" :: "" :: ls))
  | .error e => .error e

/-- Body lines of `make_key_markdown`: as for the test, with a solution
line under each entry. -/
def key_lines (byId : List (String × Question)) :
    List Inst → Nat → Except PyErr (List String)
  | [], _ => .ok []
  | inst :: rest, i =>
      match get_instance_question byId inst with
      | .error e => .error e
      | .ok Option.none => key_lines byId rest (i + 1)
      | .ok (some q) =>
          match key_lines byId rest (i + 1) with
          | .ok ls =>
              .ok ((toString i ++ ". " ++ q.text.getD "") :: "" ::
                   ("**Solution:** " ++ q.solution.getD "") :: "" :: ls)
          | .error e => .error e

/-- `make_key_markdown()`. -/
def make_key_markdown (byId : List (String × Question)) (insts : List Inst) :
    Except PyErr String :=
  match key_lines byId insts 1 with
  | .ok ls => .ok (String.intercalate "\n" ("# Answer Key" :: "" :: ls))
  | .error e => .error e

/-- `Q_BY_ID = {q["id"]: q for q in QUESTIONS}`: later duplicates
overwrite earlier ones. -/
def build_q_by_id (bank : List Question) : List (String × Question) :=
  bank.foldl (fun m q => dictSet m q.id q) []

/-- Two successive calls of the resolver on the same unmodified pair, as
performed by the live preview and the two exporters. -/
def resolve_twice (byId : List (String × Question)) (inst : Inst) :
    Except PyErr (Option Question) × Except PyErr (Option Question) :=
  (get_instance_question byId inst, get_instance_question byId inst)

/-! ### Helper lemmas -/

/-- Collapsed bounds make the range draw deterministic. -/
theorem randint_collapse (a : Int) (r : Nat) : pyRandint a a r = .ok a := by
  simp [pyRandint, Nat.mod_one]

/-- `o.getD (o.getD d) = o.getD d`. -/
theorem optGetD_self {α} (o : Option α) (d : α) : o.getD (o.getD d) = o.getD d := by
  cases o <;> rfl

/-- The element picked by the `random.choice` model is a member of a
non-empty list. -/
theorem getD_mod_mem {α} (l : List α) (d : α) (r : Nat) (h : l ≠ []) :
    l.getD (r % l.length) d ∈ l := by
  have hlen : 0 < l.length := List.length_pos.mpr h
  have hlt : r % l.length < l.length := Nat.mod_lt _ hlen
  rw [List.getD_eq_getD_get?, List.get?_eq_get hlt]
  simp

/-- The candidate list of `regenerate_variant` is non-empty when the
question has at least one variant. -/
theorem variant_choices_ne_nil (n : Nat) (current : Option Int) (hn : 0 < n) :
    variant_choices n current ≠ [] := by
  unfold variant_choices
  by_cases he : (variant_others n current).isEmpty
  · rw [if_pos he]
    simp
    omega
  · rw [if_neg he]
    intro hnil
    exact he (by simp [hnil])

/-- Every candidate index is below the variant count. -/
theorem variant_choices_subset (n : Nat) (current : Option Int) (x : Nat)
    (hx : x ∈ variant_choices n current) : x < n := by
  unfold variant_choices at hx
  by_cases he : (variant_others n current).isEmpty
  · rw [if_pos he] at hx
    exact List.mem_range.mp hx
  · rw [if_neg he] at hx
    exact List.mem_range.mp (List.mem_filter.mp hx).1

/-- The redrawn variant index is in range. -/
theorem choose_new_variant_lt (n : Nat) (current : Option Int) (r : Nat)
    (hn : 0 < n) : choose_new_variant n current r < n := by
  unfold choose_new_variant
  exact variant_choices_subset n current _
    (getD_mod_mem _ 0 r (variant_choices_ne_nil n current hn))

/-- With at least two variants the redrawn index always differs from the
stored one. -/
theorem choose_new_variant_ne (n : Nat) (current : Option Int) (r : Nat)
    (h2 : 2 ≤ n) : some (Int.ofNat (choose_new_variant n current r)) ≠ current := by
  cases current with
  | none => simp
  | some c =>
      have hne : variant_others n (some c) ≠ [] := by
        intro hnil
        rw [variant_others, List.filter_eq_nil_iff] at hnil
        have h0 := hnil 0 (List.mem_range.mpr (by omega))
        have h1 := hnil 1 (List.mem_range.mpr (by omega))
        simp at h0 h1
        omega
      have hemp : (variant_others n (some c)).isEmpty = false := by
        cases hcc : variant_others n (some c) with
        | nil => exact absurd hcc hne
        | cons a l => rfl
      have hch : variant_choices n (some c) = variant_others n (some c) := by
        rw [variant_choices, hemp]
        simp
      have hmem : choose_new_variant n (some c) r ∈ variant_others n (some c) := by
        rw [choose_new_variant, hch]
        exact getD_mod_mem _ 0 r hne
      have := (List.mem_filter.mp hmem).2
      simp only [decide_eq_true_eq] at this
      simpa using this

/-- With exactly one variant the redrawn index is always `0`. -/
theorem choose_new_variant_one (current : Option Int) (r : Nat) :
    choose_new_variant 1 current r = 0 := by
  have := choose_new_variant_lt 1 current r (by omega)
  omega

/-! ### Claim C9 -/

/-- Claim C9 (confirmed): resolution is deterministic and idempotent.  The
embedded `get_instance_question` is a pure function of the id index and the
instance alone — the Python function copies the base dict (`q = dict(base)`)
before mutating it, draws no randomness and writes no session state — so
two successive calls on the same unmodified pair return identical results,
and neither call changes the bank index or the instance. -/
theorem C9_resolve_idempotent (byId : List (String × Question)) (inst : Inst) :
    resolve_twice byId inst
      = (get_instance_question byId inst, get_instance_question byId inst)
    ∧ (resolve_twice byId inst).1 = (resolve_twice byId inst).2 :=
  ⟨rfl, rfl⟩

/-! ### Claim C10 -/

/-- Claim C10 (confirmed): boundary operations leave the instance sequence
unchanged: `move_up` at index 0, `move_down` at the last index, and
`remove_from_test` at any out-of-range index (negative or past the end)
are no-ops. -/
theorem C10_boundary_noops (insts : List Inst) :
    move_up insts 0 = insts
    ∧ move_down insts ((insts.length : Int) - 1) = insts
    ∧ ∀ i : Int, (i < 0 ∨ (insts.length : Int) ≤ i) →
        remove_from_test insts i = insts := by
  refine ⟨?_, ?_, ?_⟩
  · simp [move_up]
  · simp [move_down]
  · intro i hi
    unfold remove_from_test
    rw [if_neg]
    omega

/-- Claim C10 witness: the boundary no-ops at a concrete two-element
sequence and the concrete out-of-range indices `-1` and `2`. -/
theorem C10_boundary_noops_witness :
    move_up [instDefault, instDefault] 0 = [instDefault, instDefault]
    ∧ move_down [instDefault, instDefault] (([instDefault, instDefault].length : Int) - 1)
        = [instDefault, instDefault]
    ∧ remove_from_test [instDefault, instDefault] (-1) = [instDefault, instDefault]
    ∧ remove_from_test [instDefault, instDefault] 2 = [instDefault, instDefault] :=
  ⟨(C10_boundary_noops [instDefault, instDefault]).1,
   (C10_boundary_noops [instDefault, instDefault]).2.1,
   (C10_boundary_noops [instDefault, instDefault]).2.2 (-1) (Or.inl (by decide)),
   (C10_boundary_noops [instDefault, instDefault]).2.2 2 (Or.inr (by decide))⟩

/-! ### Claim C8 -/

/-- Claim C8 (confirmed): `filtered_questions` always returns a sublist of
the bank (bank order preserved), and when every filter field is the empty
set and the search text is empty or whitespace-only it returns the whole
bank. -/
theorem C8_filter_unrestricted (bank : List Question)
    (cf sf qf tf : List String) (s : String) :
    (filtered_questions bank cf sf qf tf s).Sublist bank
    ∧ (cf = [] → sf = [] → qf = [] → tf = [] → pyStripEmpty s = true →
        filtered_questions bank cf sf qf tf s = bank) := by
  constructor
  · unfold filtered_questions
    by_cases hb : bank.isEmpty
    · rw [if_pos hb, List.isEmpty_iff.mp hb]
    · rw [if_neg hb]
      exact List.filter_sublist bank
  · rintro rfl rfl rfl rfl hs
    unfold filtered_questions
    by_cases hb : bank.isEmpty
    · rw [if_pos hb, List.isEmpty_iff.mp hb]
    · rw [if_neg hb, List.filter_eq_self]
      intro q hq
      simp [question_matches_filters, hs]

/-- Claim C8 witness: a concrete two-question bank with all filter fields
empty and a whitespace-only search string. -/
theorem C8_filter_unrestricted_witness :
    (filtered_questions [{ id := "A" }, { id := "B", static := some false }]
        [] [] [] [] " ").Sublist [{ id := "A" }, { id := "B", static := some false }]
    ∧ filtered_questions [{ id := "A" }, { id := "B", static := some false }]
        [] [] [] [] " "
        = [{ id := "A" }, { id := "B", static := some false }] :=
  ⟨(C8_filter_unrestricted [{ id := "A" }, { id := "B", static := some false }]
      [] [] [] [] " ").1,
   (C8_filter_unrestricted [{ id := "A" }, { id := "B", static := some false }]
      [] [] [] [] " ").2 rfl rfl rfl rfl rfl⟩

/-! ### Claim C5 -/

/-- The one-question bank of the C5 scenario. -/
def C5_q : Question :=
  { id := "Q1", text := some "2+2=?", solution := some "4",
    static := some true, points := some 1 }

/-- The id index for the C5 scenario. -/
def C5_byId : List (String × Question) := build_q_by_id [C5_q]

/-- The single instance `add_to_test(["Q1"])` appends. -/
def C5_inst : Inst := { qid := "Q1" }

/-- Claim C5 counterexample: appending `["Q1"]` does yield exactly this one
instance, but `render_test` returns `"# Test\n\n1. 2+2=?\n"` — one trailing
newline, not the claimed `"# Test\n\n1. 2+2=?\n\n"` (the `"\n".join` of
`["# Test", "", "1. 2+2=?", ""]` ends after the last empty element). -/
theorem C5_static_export_cex :
    add_to_test C5_byId (fun _ => 0) ["Q1"] [] 0 = .ok ([C5_inst], 0)
    ∧ make_test_markdown C5_byId [C5_inst] = .ok "# Test\n\n1. 2+2=?\n"
    ∧ ("# Test\n\n1. 2+2=?\n" : String) ≠ "# Test\n\n1. 2+2=?\n\n" :=
  ⟨rfl, rfl, by decide⟩

/-- Claim C5 (corrected): for the bank
`[{id:"Q1", static:true, text:"2+2=?", solution:"4", points:1}]`, appending
`["Q1"]` produces exactly one instance whatever the random source (no draw
is consumed), `render_test` returns `"# Test\n\n1. 2+2=?\n"` (a single
trailing newline), and `render_key` contains `"**Solution:** 4"`. -/
theorem C5_static_export (rng : Nat → Nat) (pos : Nat) :
    add_to_test C5_byId rng ["Q1"] [] pos = .ok ([C5_inst], pos)
    ∧ make_test_markdown C5_byId [C5_inst] = .ok "# Test\n\n1. 2+2=?\n"
    ∧ make_key_markdown C5_byId [C5_inst]
        = .ok "# Answer Key\n\n1. 2+2=?\n\n**Solution:** 4\n"
    ∧ strContains "# Answer Key\n\n1. 2+2=?\n\n**Solution:** 4\n" "**Solution:** 4"
        = true :=
  ⟨rfl, rfl, rfl, by decide⟩

/-! ### Claim C7 -/

/-- The parameterized question of the C7 scenario. -/
def C7_q : Question :=
  { id := "Q7",
    text_template := some "{n1}+{n2}={sum}",
    params := some [("n1", .range 1 1), ("n2", .range 2 2),
                    ("sum", .expr (.add (.ident "n1") (.ident "n2")))] }

/-- The id index for the C7 scenario. -/
def C7_byId : List (String × Question) := build_q_by_id [C7_q]

/-- The instance `add_to_test(["Q7"])` appends, for every random source:
the collapsed ranges force `n1 = 1` and `n2 = 2`, and the expression rule
is evaluated afterwards over those values. -/
def C7_inst : Inst :=
  { qid := "Q7", params := some [("n1", .int 1), ("n2", .int 2), ("sum", .int 3)] }

/-- Claim C7 (confirmed): generating an instance of the question with
`params {n1:{min:1,max:1}, n2:{min:2,max:2}, sum:{expr:"n1+n2"}}` and
`text_template "{n1}+{n2}={sum}"` stores `n1=1, n2=2, sum=3` whatever the
random source yields (two draws are consumed), and resolving that instance
renders the text `"1+2=3"`. -/
theorem C7_param_pipeline (rng : Nat → Nat) (pos : Nat) :
    add_to_test C7_byId rng ["Q7"] [] pos = .ok ([C7_inst], pos + 2)
    ∧ (get_instance_question C7_byId C7_inst).map (Option.map Question.text)
        = .ok (some (some "1+2=3")) := by
  constructor
  · simp [add_to_test, C7_byId, C7_q, build_q_by_id, dictSet, dictGet,
          generate_params_for_question, gen_params_go, randint_collapse,
          evalPyExpr, C7_inst]
  · rfl

/-! ### Claim C3 -/

/-- A question whose `expr` rule is the bare name `open`, undeclared as a
parameter. -/
def C3_q : Question :=
  { id := "QE", params := some [("x", ParamRule.expr (PyExpr.ident "open"))] }

/-- Claim C3 (code_bug): the spec requires the expression evaluator to
raise `UndefinedParameterError` on any name that is not an
already-generated parameter and to have no access to ambient state, the
file system or arbitrary functions.  The code calls
`eval(expr, {}, values)`, and CPython injects the real built-ins into the
empty globals: the undeclared name `open` resolves to the file-opening
built-in and is stored as the parameter value without any error, for every
random source.  Only names absent from both the generated values and the
built-ins raise. -/
theorem C3_eval_reaches_builtins (rng : Nat → Nat) (pos : Nat) :
    generate_params_for_question rng C3_q pos
      = .ok ([("x", PyVal.builtin "open")], pos)
    ∧ pyBuiltins.contains "open" = true
    ∧ evalPyExpr (.ident "open") [] = .ok (.builtin "open")
    ∧ evalPyExpr (.ident "some_undeclared_param") [] = .error .nameError :=
  ⟨rfl, rfl, rfl, rfl⟩

/-! ### Claim C1 -/

/-- A static question that also carries a `text_template`. -/
def C1_q : Question :=
  { id := "Q1", text := some "a", solution := some "s",
    text_template := some "{n}", static := some true }

/-- The id index for the C1 counterexample. -/
def C1_byId : List (String × Question) := build_q_by_id [C1_q]

/-- An instance of the static question that stores a params mapping. -/
def C1_inst : Inst := { qid := "Q1", params := some [("n", PyVal.int 5)] }

/-- Claim C1 counterexample: template substitution in
`get_instance_question` is not guarded by `static`, so resolving an
instance of a `static=true` question that has a `text_template` and stores
a params mapping returns the rendered template (`"5"`), not the question's
own text (`"a"`). -/
theorem C1_static_template_cex :
    get_instance_question C1_byId C1_inst = .ok (some { C1_q with text := some "5" })
    ∧ C1_q.text = some "a"
    ∧ ("5" : String) ≠ "a" :=
  ⟨rfl, rfl, by decide⟩

/-- Claim C1 (corrected): for a `static=true` question the variant override
never fires, and provided the question defines no `text_template` and no
`solution_template` — or the instance stores no (or an empty) params
mapping — resolution returns the question's own `text`/`solution`
unchanged (defaulted to `""` when absent), whatever `variant_index` or
params the instance stores.  (A static question with a template and a
non-empty stored params mapping is instead template-rendered, as the
counterexample shows.) -/
theorem C1_static_resolution (byId : List (String × Question)) (inst : Inst)
    (q : Question)
    (h1 : dictGet byId inst.qid = some q)
    (h2 : q.static.getD true = true)
    (h3 : (q.text_template = Option.none ∧ q.solution_template = Option.none)
          ∨ (inst.params = Option.none ∨ inst.params = some [])) :
    get_instance_question byId inst
      = .ok (some { q with text := some (q.text.getD ""),
                           solution := some (q.solution.getD "") }) := by
  unfold get_instance_question
  rw [h1]
  dsimp only
  have hv : apply_variant q inst = .ok q := by
    unfold apply_variant
    rw [h2]
    simp
  rw [hv]
  dsimp only
  have ht : apply_templates q q inst = .ok q := by
    rcases h3 with ⟨htt, hst⟩ | hp | hp
    · unfold apply_templates
      cases hps : inst.params with
      | none => rfl
      | some ps =>
          cases ps with
          | nil => rfl
          | cons p ps1 => simp [apply_text_template, apply_solution_template, htt, hst]
    · simp [apply_templates, hp]
    · simp [apply_templates, hp]
  rw [ht]
  dsimp only
  unfold apply_defaults
  simp [optGetD_self]

/-- Claim C1 witness: a static question without templates, resolved from an
instance that stores both a (dangling) variant index and a params mapping;
the result is the question's own text and the defaulted empty solution. -/
theorem C1_static_resolution_witness :
    get_instance_question (build_q_by_id [{ id := "W", text := some "t", static := some true }])
        { qid := "W", variant := some 7, params := some [("a", PyVal.int 1)] }
      = .ok (some { ({ id := "W", text := some "t", static := some true } : Question) with
                    text := some ((some "t" : Option String).getD ""),
                    solution := some ((Option.none : Option String).getD "") }) :=
  C1_static_resolution
    (build_q_by_id [{ id := "W", text := some "t", static := some true }])
    { qid := "W", variant := some 7, params := some [("a", PyVal.int 1)] }
    { id := "W", text := some "t", static := some true }
    rfl rfl (Or.inl ⟨rfl, rfl⟩)

/-! ### Claim C4 -/

/-- A non-static question with a single variant. -/
def C4_q : Question :=
  { id := "Q4", static := some false, variants := some [{ text := some "v0" }] }

/-- The id index for the C4 counterexample. -/
def C4_byId : List (String × Question) := build_q_by_id [C4_q]

/-- An instance storing the out-of-bounds variant index 2. -/
def C4_inst : Inst := { qid := "Q4", variant := some 2 }

/-- Claim C4 counterexample: `get_instance_question` applies the stored
variant index without a bounds check, so an out-of-bounds index makes
resolution fail with an `IndexError` instead of never failing. -/
theorem C4_out_of_bounds_cex :
    get_instance_question C4_byId C4_inst = .error PyErr.indexError :=
  rfl

/-- Claim C4 (corrected): the variant override fires only when the
question is non-static, its variants list is non-empty and the instance
stores a variant index — when the question is static, its variants list is
empty, or no index is stored, resolution ignores the stored index entirely.
But the stored index is not bounds-checked: whenever it falls outside
Python's index range for the variants list, resolution fails with an
`IndexError` (a negative in-range index selects from the back). -/
theorem C4_variant_guards (byId : List (String × Question)) (inst : Inst)
    (q : Question) (h1 : dictGet byId inst.qid = some q) :
    ((q.static.getD true = true ∨ q.variants.getD [] = []
        ∨ inst.variant = Option.none) →
      get_instance_question byId inst
        = get_instance_question byId { inst with variant := Option.none })
    ∧ (∀ i : Int, q.static.getD true = false → q.variants.getD [] ≠ [] →
        inst.variant = some i → pyIndex (q.variants.getD []) i = Option.none →
        get_instance_question byId inst = .error PyErr.indexError) := by
  constructor
  · intro hcase
    have hqid : ({ inst with variant := Option.none } : Inst).qid = inst.qid := rfl
    unfold get_instance_question
    rw [hqid, h1]
    dsimp only
    have hv1 : apply_variant q inst = .ok q := by
      unfold apply_variant
      rcases hcase with hs | hv | hn
      · rw [hs]
        simp
      · by_cases hb : q.static.getD true
        · rw [hb]
          simp
        · simp only [hb, Bool.false_eq_true, if_false, hv]
      · by_cases hb : q.static.getD true
        · rw [hb]
          simp
        · simp only [hb, Bool.false_eq_true, if_false, hn]
          cases q.variants.getD [] <;> rfl
    have hv2 : apply_variant q { inst with variant := Option.none } = .ok q := by
      unfold apply_variant
      by_cases hb : q.static.getD true
      · rw [hb]
        simp
      · simp only [hb, Bool.false_eq_true, if_false]
        cases q.variants.getD [] <;> rfl
    rw [hv1, hv2]
    rfl
  · intro i hsf hvne hvi hpi
    unfold get_instance_question
    rw [h1]
    dsimp only
    have hv : apply_variant q inst = .error PyErr.indexError := by
      unfold apply_variant
      rw [hsf]
      simp only [Bool.false_eq_true, if_false]
      cases hvs : q.variants.getD [] with
      | nil => exact absurd hvs hvne
      | cons v0 vr =>
          rw [hvi]
          dsimp only
          rw [hvs] at hpi
          rw [hpi]
    rw [hv]

/-- Claim C4 witness: both parts at concrete inputs — the out-of-bounds
index 2 on a one-variant question raises, and a static question ignores a
stored (dangling) variant index. -/
theorem C4_variant_guards_witness :
    get_instance_question C4_byId C4_inst = .error PyErr.indexError
    ∧ get_instance_question (build_q_by_id [{ id := "S", text := some "t", static := some true }])
          { qid := "S", variant := some 3 }
        = get_instance_question (build_q_by_id [{ id := "S", text := some "t", static := some true }])
            ({ qid := "S", variant := Option.none } : Inst) :=
  ⟨(C4_variant_guards C4_byId C4_inst C4_q rfl).2 2 rfl (by decide) rfl rfl,
   (C4_variant_guards (build_q_by_id [{ id := "S", text := some "t", static := some true }])
      { qid := "S", variant := some 3 }
      { id := "S", text := some "t", static := some true } rfl).1 (Or.inl rfl)⟩

/-! ### Claim C2 -/

/-- A raised resolution error anywhere in the sequence aborts the whole
test-body rendering. -/
theorem test_lines_error (byId : List (String × Question)) (insts : List Inst) :
    ∀ n : Nat, (∃ inst ∈ insts, ∃ e, get_instance_question byId inst = .error e) →
      ∃ e1, test_lines byId insts n = .error e1 := by
  induction insts with
  | nil =>
      intro n h
      rcases h with ⟨inst, hmem, _⟩
      cases hmem
  | cons a rest ih =>
      intro n h
      rcases h with ⟨inst, hmem, e, he⟩
      rcases List.mem_cons.mp hmem with rfl | htail
      · exact ⟨e, by simp [test_lines, he]⟩
      · cases hgiq : get_instance_question byId a with
        | error e2 => exact ⟨e2, by simp [test_lines, hgiq]⟩
        | ok oq =>
            obtain ⟨e1, h1⟩ := ih (n + 1) ⟨inst, htail, e, he⟩
            cases oq with
            | none => exact ⟨e1, by simp [test_lines, hgiq, h1]⟩
            | some qq => exact ⟨e1, by simp [test_lines, hgiq, h1]⟩

/-- A raised resolution error anywhere in the sequence aborts the whole
key-body rendering. -/
theorem key_lines_error (byId : List (String × Question)) (insts : List Inst) :
    ∀ n : Nat, (∃ inst ∈ insts, ∃ e, get_instance_question byId inst = .error e) →
      ∃ e1, key_lines byId insts n = .error e1 := by
  induction insts with
  | nil =>
      intro n h
      rcases h with ⟨inst, hmem, _⟩
      cases hmem
  | cons a rest ih =>
      intro n h
      rcases h with ⟨inst, hmem, e, he⟩
      rcases List.mem_cons.mp hmem with rfl | htail
      · exact ⟨e, by simp [key_lines, he]⟩
      · cases hgiq : get_instance_question byId a with
        | error e2 => exact ⟨e2, by simp [key_lines, hgiq]⟩
        | ok oq =>
            obtain ⟨e1, h1⟩ := ih (n + 1) ⟨inst, htail, e, he⟩
            cases oq with
            | none => exact ⟨e1, by simp [key_lines, hgiq, h1]⟩
            | some qq => exact ⟨e1, by simp [key_lines, hgiq, h1]⟩

/-- A resolvable static question for the C2 counterexample. -/
def C2_qgood : Question :=
  { id := "QG", text := some "2+2=?", solution := some "4", static := some true }

/-- A question whose template references the placeholder `m`, absent from
any generated params. -/
def C2_qbad : Question := { id := "QB", text_template := some "{m}" }

/-- The id index for the C2 counterexample. -/
def C2_byId : List (String × Question) := build_q_by_id [C2_qgood, C2_qbad]

/-- The resolvable instance. -/
def C2_good : Inst := { qid := "QG" }

/-- The instance whose stored params lack the template's placeholder. -/
def C2_bad : Inst := { qid := "QB", params := some [("z", PyVal.int 1)] }

/-- Claim C2 counterexample: with one resolvable instance and one instance
whose template references a placeholder absent from its stored params,
`render_test` and `render_key` raise a `KeyError` and produce no document
at all — the resolvable instance is not exported. -/
theorem C2_export_abort_cex :
    make_test_markdown C2_byId [C2_good, C2_bad] = .error PyErr.keyError
    ∧ make_key_markdown C2_byId [C2_good, C2_bad] = .error PyErr.keyError
    ∧ get_instance_question C2_byId C2_good
        = .ok (some { C2_qgood with text := some "2+2=?", solution := some "4" }) :=
  ⟨rfl, rfl, rfl⟩

/-- Claim C2 (corrected): export is not partial-failure tolerant for
resolution errors.  If any instance in the sequence fails to resolve
(e.g. its template references a placeholder absent from the stored params),
`render_test` and `render_key` abort with a raised error and produce no
document; only instances whose id lookup fails are silently skipped. -/
theorem C2_export_aborts (byId : List (String × Question)) (insts : List Inst)
    (h : ∃ inst ∈ insts, ∃ e, get_instance_question byId inst = .error e) :
    (∃ e1, make_test_markdown byId insts = .error e1)
    ∧ (∃ e2, make_key_markdown byId insts = .error e2) := by
  constructor
  · obtain ⟨e1, h1⟩ := test_lines_error byId insts 1 h
    exact ⟨e1, by simp [make_test_markdown, h1]⟩
  · obtain ⟨e2, h2⟩ := key_lines_error byId insts 1 h
    exact ⟨e2, by simp [make_key_markdown, h2]⟩

/-- Claim C2 witness: the abort at the concrete two-instance sequence of
the counterexample. -/
theorem C2_export_aborts_witness :
    (∃ e1, make_test_markdown C2_byId [C2_good, C2_bad] = .error e1)
    ∧ (∃ e2, make_key_markdown C2_byId [C2_good, C2_bad] = .error e2) :=
  C2_export_aborts C2_byId [C2_good, C2_bad]
    ⟨C2_bad, by simp, PyErr.keyError, rfl⟩

/-! ### Claim C6 -/

/-- A non-static question with exactly one variant. -/
def C6_q : Question :=
  { id := "Q6", static := some false, variants := some [{ text := some "v0" }] }

/-- The id index for the C6 counterexample. -/
def C6_byId : List (String × Question) := build_q_by_id [C6_q]

/-- An instance of the one-variant question storing variant index 1. -/
def C6_inst : Inst := { qid := "Q6", variant := some 1 }

/-- Claim C6 counterexample: with exactly one variant, `regenerate` is not
a no-op on every instance — when the stored index is not already 0 (here
it is 1), the filtered candidate list is `[0]` and the call rewrites the
stored value to 0. -/
theorem C6_single_variant_cex :
    regenerate_variant C6_byId [C6_inst] 0 (fun _ => 0) 0
      = ([{ qid := "Q6", variant := some 0 }], 1)
    ∧ ({ qid := "Q6", variant := some 0 } : Inst) ≠ C6_inst :=
  ⟨rfl, by decide⟩

/-- Claim C6 (corrected): for every instance of a non-static question with
a non-empty variants list, a single `regenerate` call stores a fresh
in-range index, whatever the random source yields; with at least two
variants the new index always differs from the stored value, and with
exactly one variant the new index is always 0 — so the call is a no-op
exactly when the stored value is already 0, not for every stored value.
With no variants the call leaves the sequence unchanged. -/
theorem C6_regenerate (byId : List (String × Question)) (insts : List Inst)
    (i : Nat) (rng : Nat → Nat) (pos : Nat) (inst : Inst) (q : Question)
    (hget : insts.get? i = some inst)
    (hdict : dictGet byId inst.qid = some q) :
    (q.static.getD true = false → q.variants.getD [] ≠ [] →
      ∃ j : Nat, j < (q.variants.getD []).length ∧
        regenerate_variant byId insts (Int.ofNat i) rng pos
          = (insts.set i { inst with variant := some (Int.ofNat j) }, pos + 1) ∧
        (2 ≤ (q.variants.getD []).length → some (Int.ofNat j) ≠ inst.variant) ∧
        ((q.variants.getD []).length = 1 → j = 0))
    ∧ (q.variants.getD [] = [] →
        regenerate_variant byId insts (Int.ofNat i) rng pos = (insts, pos)) := by
  obtain ⟨hilt, -⟩ := List.get?_eq_some.mp hget
  have hguard : ¬(Int.ofNat i < 0 ∨ (insts.length : Int) ≤ Int.ofNat i) := by
    simp only [Int.ofNat_eq_coe]
    push_neg
    constructor <;> omega
  have hgd : insts.getD i instDefault = inst := by
    rw [List.getD_eq_getD_get?, hget]
    rfl
  constructor
  · intro hsf hvne
    have hemp : (q.variants.getD []).isEmpty = false := by
      cases hvs : q.variants.getD [] with
      | nil => exact absurd hvs hvne
      | cons a l => rfl
    refine ⟨choose_new_variant (q.variants.getD []).length inst.variant (rng pos),
            ?_, ?_, ?_, ?_⟩
    · exact choose_new_variant_lt _ _ _ (List.length_pos.mpr hvne)
    · unfold regenerate_variant
      rw [if_neg hguard]
      simp only [Int.ofNat_eq_coe, Int.toNat_ofNat]
      rw [hgd, hdict]
      dsimp only
      simp [hsf, hemp]
    · intro h2
      exact choose_new_variant_ne _ _ _ h2
    · intro h1
      rw [h1]
      exact choose_new_variant_one _ _
  · intro hv
    unfold regenerate_variant
    rw [if_neg hguard]
    simp only [Int.ofNat_eq_coe, Int.toNat_ofNat]
    rw [hgd, hdict]
    dsimp only
    by_cases hb : q.static.getD true
    · simp [hb]
    · simp [hb, hv]

/-- A non-static question with two variants, for the C6 witness. -/
def C6W_q : Question :=
  { id := "W6", static := some false,
    variants := some [{ text := some "a" }, { text := some "b" }] }

/-- The id index for the C6 witness. -/
def C6W_byId : List (String × Question) := build_q_by_id [C6W_q]

/-- An instance of the two-variant question storing variant index 0. -/
def C6W_inst : Inst := { qid := "W6", variant := some 0 }

/-- Claim C6 witness: the redraw at a concrete two-variant question (the
fresh index is in range and differs from the stored 0, for the concrete
draw 5) and the no-op at a concrete question without variants. -/
theorem C6_regenerate_witness :
    (∃ j : Nat, j < (C6W_q.variants.getD []).length ∧
        regenerate_variant C6W_byId [C6W_inst] (Int.ofNat 0) (fun _ => 5) 3
          = ([C6W_inst].set 0 { C6W_inst with variant := some (Int.ofNat j) }, 3 + 1) ∧
        (2 ≤ (C6W_q.variants.getD []).length → some (Int.ofNat j) ≠ C6W_inst.variant) ∧
        ((C6W_q.variants.getD []).length = 1 → j = 0))
    ∧ regenerate_variant (build_q_by_id [{ id := "N", static := some false }])
        [{ qid := "N" }] (Int.ofNat 0) (fun _ => 5) 3 = ([{ qid := "N" }], 3) :=
  ⟨(C6_regenerate C6W_byId [C6W_inst] 0 (fun _ => 5) 3 C6W_inst C6W_q rfl rfl).1
      rfl (by decide),
   (C6_regenerate (build_q_by_id [{ id := "N", static := some false }])
      [{ qid := "N" }] 0 (fun _ => 5) 3 { qid := "N" }
      { id := "N", static := some false } rfl rfl).2 rfl⟩
